import Mathlib

/-!
Verification development for a handheld-console CPU emulator core
(`src/utils/mod.rs`, `src/hardware/cpu.rs`, `src/hardware/memory.rs`,
`src/interpreter/disassembler.rs`, `src/interpreter/mod.rs`).

The Rust integer types are embedded as `Nat` with explicit wrapping:
`u8` values carry `% 256` and `u16` values `% 65536` exactly where the
Rust type or a `wrapping_*` operation truncates.  Rust panics
(`panic!` free functions in `CPU`, `assert` failures, and the executor's
todo arms) are embedded as the `Res.crash` outcome; `Result<_,
ExecutionError>` becomes the `ok`/`err` outcomes of the same type.
-/

namespace Emulator

/-! ## `src/utils/mod.rs` -/

/-- Source doc comment says `0x12, 0x34 => 0x1234`; `((fst as u16) << 8) + snd`. -/
def bytes_to_word_big_endian (fst snd : Nat) : Nat :=
  ((fst % 256) <<< 8) + snd % 256

/-- Source doc comment says `0x1234 => 0x12, 0x34`, but the code computes
`(((word << 8) >> 8) as u8, (word >> 8) as u8)`, which is `(low, high)`:
the pair is returned in the opposite order from the documented one. -/
def word_to_bytes_big_endian (word : Nat) : Nat × Nat :=
  ((((word % 65536) <<< 8) % 65536) >>> 8, (word % 65536) >>> 8)

/-- `bytes_to_word_big_endian(snd, fst)`. -/
def bytes_to_word_little_endian (fst snd : Nat) : Nat :=
  bytes_to_word_big_endian snd fst

/-- Source doc comment says `0x1234 => 0x34, 0x12`; the code swaps the pair
returned by `word_to_bytes_big_endian`. -/
def word_to_bytes_little_endian (word : Nat) : Nat × Nat :=
  ((word_to_bytes_big_endian word).2, (word_to_bytes_big_endian word).1)

/-- `(word >> 8) | (word << 8)` on `u16`. -/
def endianess_conversion (word : Nat) : Nat :=
  ((word % 65536) >>> 8) ||| (((word % 65536) <<< 8) % 65536)

/-- Returns `fst` of `word_to_bytes_big_endian`, i.e. the LOW byte of `word`. -/
def get_word_left_byte (word : Nat) : Nat :=
  (word_to_bytes_big_endian word).1

/-- Source body is identical to `get_word_left_byte`: it also returns `fst`
of `word_to_bytes_big_endian` (the low byte), not the other half. -/
def get_word_right_byte (word : Nat) : Nat :=
  (word_to_bytes_big_endian word).1

/-- `bytes_to_word_big_endian(byte, snd)` where `(_, snd) = word_to_bytes_big_endian(word)`. -/
def set_word_left_byte (word byte : Nat) : Nat :=
  bytes_to_word_big_endian byte (word_to_bytes_big_endian word).2

/-- `bytes_to_word_big_endian(fst, byte)` where `(fst, _) = word_to_bytes_big_endian(word)`. -/
def set_word_right_byte (word byte : Nat) : Nat :=
  bytes_to_word_big_endian (word_to_bytes_big_endian word).1 byte

/-- `(byte << i) >> (i + (8 - j))` on `u8`; indexes are left-to-right.
Every call site passes `i < 8`, `j ≤ 8`, `i ≤ j`, so the source assert holds. -/
def get_bits_of_byte (byte i j : Nat) : Nat :=
  (((byte % 256) <<< i) % 256) >>> (i + (8 - j))

/-- Bit of left-to-right index `i`, as a bool with `0 = false, 1 = true`. -/
def get_bit_of_byte (byte i : Nat) : Bool :=
  get_bits_of_byte byte i (i + 1) == 1

/-- `byte | (1 << i)` or `byte & !(1 << i)`: note `1 << i` counts from the
RIGHT here, unlike `get_bit_of_byte`'s left-to-right indexing. -/
def set_bit_of_byte (byte i : Nat) (bit : Bool) : Nat :=
  if bit then (byte % 256) ||| ((1 <<< i) % 256)
  else (byte % 256) &&& (255 ^^^ ((1 <<< i) % 256))

/-- `(op1 ^ op2 ^ result) & (1 << position) != 0` on `u16`. -/
def overflow_occured_word (op1 op2 result position : Nat) : Bool :=
  ((op1 % 65536) ^^^ (op2 % 65536) ^^^ (result % 65536)) &&& (1 <<< position) != 0

/-- `(op1 ^ op2 ^ result) & (1 << position) != 0` on `u8`. -/
def overflow_occured_byte (op1 op2 result position : Nat) : Bool :=
  ((op1 % 256) ^^^ (op2 % 256) ^^^ (result % 256)) &&& (1 <<< position) != 0

/-- `((!op1) & op2) & (1 << position) != 0` on `u16`. -/
def borrow_occurred_word (op1 op2 position : Nat) : Bool :=
  ((65535 ^^^ (op1 % 65536)) &&& (op2 % 65536)) &&& (1 <<< position) != 0

/-- `((!op1) & op2) & (1 << position) != 0` on `u8`. -/
def borrow_occurred_byte (op1 op2 position : Nat) : Bool :=
  ((255 ^^^ (op1 % 256)) &&& (op2 % 256)) &&& (1 <<< position) != 0

/-! ## Register names, instruction operand selectors, instructions, errors
(`src/hardware/cpu.rs`, `src/interpreter/disassembler.rs`) -/

/-- `hardware::cpu::Register`. -/
inductive Register where
  | A | B | C | D | E | H | L
  | AF | BC | DE | HL | SP | PC
  | FlagZ | FlagN | FlagH | FlagC
deriving DecidableEq, Repr

/-- `disassembler::R8`. -/
inductive R8 where
  | B | C | D | E | H | L | AddrHL | A
deriving DecidableEq, Repr

/-- `disassembler::R16`. -/
inductive R16 where
  | BC | DE | HL | SP
deriving DecidableEq, Repr

/-- `disassembler::R16mem`. -/
inductive R16mem where
  | BC | DE | IncrHL | DecrHL
deriving DecidableEq, Repr

/-- `disassembler::Cond`. -/
inductive Cond where
  | NotZ | Z | NotC | C
deriving DecidableEq, Repr

/-- Modelled from the spec: `interpreter/mod.rs` imports `disassembler::R16stk`
but the sampled `disassembler.rs` revision does not declare it; the spec fixes
the selector as `r16stk = {BC, DE, HL, AF}` (AF replaces SP for push/pop). -/
inductive R16stk where
  | BC | DE | HL | AF
deriving DecidableEq, Repr

/-- `impl From<usize> for R8`; every call site passes a 3-bit field, so the
source `assert!(i < 8)` and its unreachable arm never fire (the catch-all
arm below is never applied). -/
def R8.fromIndex : Nat → R8
  | 0 => .B
  | 1 => .C
  | 2 => .D
  | 3 => .E
  | 4 => .H
  | 5 => .L
  | 6 => .AddrHL
  | 7 => .A
  | _ => .A

/-- `impl From<usize> for R16`; call sites pass 2-bit fields. -/
def R16.fromIndex : Nat → R16
  | 0 => .BC
  | 1 => .DE
  | 2 => .HL
  | 3 => .SP
  | _ => .SP

/-- `impl From<usize> for R16mem`; call sites pass 2-bit fields. -/
def R16mem.fromIndex : Nat → R16mem
  | 0 => .BC
  | 1 => .DE
  | 2 => .IncrHL
  | 3 => .DecrHL
  | _ => .DecrHL

/-- `impl From<usize> for Cond`; call sites pass 2-bit fields. -/
def Cond.fromIndex : Nat → Cond
  | 0 => .NotZ
  | 1 => .Z
  | 2 => .NotC
  | 3 => .C
  | _ => .C

/-- `impl Into<Register> for R8` (the `AddrHL` selector maps to `Register::HL`). -/
def R8.intoRegister : R8 → Register
  | .B => .B
  | .C => .C
  | .D => .D
  | .E => .E
  | .H => .H
  | .L => .L
  | .AddrHL => .HL
  | .A => .A

/-- `impl Into<Register> for R16`. -/
def R16.intoRegister : R16 → Register
  | .BC => .BC
  | .DE => .DE
  | .HL => .HL
  | .SP => .SP

/-- `impl Into<Register> for R16mem`. -/
def R16mem.intoRegister : R16mem → Register
  | .BC => .BC
  | .DE => .DE
  | .IncrHL => .HL
  | .DecrHL => .HL

/-- `impl Into<Register> for Cond`: `NotZ | Z => FlagZ`, `NotC | C => FlagC`. -/
def Cond.intoRegister : Cond → Register
  | .NotZ => .FlagZ
  | .Z => .FlagZ
  | .NotC => .FlagC
  | .C => .FlagC

/-- Modelled from the spec: `impl Into<Register> for R16stk` is not in the
sampled source; the spec's `r16stk = {BC, DE, HL, AF}` fixes the mapping. -/
def R16stk.intoRegister : R16stk → Register
  | .BC => .BC
  | .DE => .DE
  | .HL => .HL
  | .AF => .AF

/-- `disassembler::Instruction`, merged with the additional variants that
`interpreter/mod.rs` matches on (`DI`..`PushR16stk`); those variants'
declarations are from a revision not in the sampled `disassembler.rs`, their
payloads follow the executor's match arms and the spec's opcode table. -/
inductive Instruction where
  | Unkown : Nat → Instruction
  | NOP | RLCA | RRCA | RLA | RRA | DAA | CPL | SCF | CCF | STOP | HALT
  | LdR16Imm16 : R16 → Nat → Instruction
  | LdR16memA : R16mem → Instruction
  | LdAR16mem : R16mem → Instruction
  | LdAddrImm16Sp : Nat → Instruction
  | LdR8Imm8 : R8 → Nat → Instruction
  | LdR8R8 : R8 → R8 → Instruction
  | JrImm8 : Nat → Instruction
  | JrCondImm8 : Cond → Nat → Instruction
  | IncR8 : R8 → Instruction
  | IncR16 : R16 → Instruction
  | DecR8 : R8 → Instruction
  | DecR16 : R16 → Instruction
  | AddHlR16 : R16 → Instruction
  | AddAR8 : R8 → Instruction
  | AdcAR8 : R8 → Instruction
  | SubAR8 : R8 → Instruction
  | SbcAR8 : R8 → Instruction
  | AndAR8 : R8 → Instruction
  | XorAR8 : R8 → Instruction
  | OrAR8 : R8 → Instruction
  | CpAR8 : R8 → Instruction
  | AddAImm8 : Nat → Instruction
  | AdcAImm8 : Nat → Instruction
  | SubAImm8 : Nat → Instruction
  | SbcAImm8 : Nat → Instruction
  | AndAImm8 : Nat → Instruction
  | XorAImm8 : Nat → Instruction
  | OrAImm8 : Nat → Instruction
  | CpAImm8 : Nat → Instruction
  | DI | EI
  | LdAddrImm16A : Nat → Instruction
  | LdAAddrImm16 : Nat → Instruction
  | LdhAddrCA | LdhAAddrC
  | LdhAddrImm8A : Nat → Instruction
  | LdhAAddrImm8 : Nat → Instruction
  | Ret | Reti
  | RetCond : Cond → Instruction
  | JpImm16 : Nat → Instruction
  | JpCondImm16 : Cond → Nat → Instruction
  | JpHl
  | PopR16stk : R16stk → Instruction
  | PushR16stk : R16stk → Instruction

/-- `Instruction::get_size` as in the sampled `disassembler.rs` (note `STOP`
is listed in the 1-byte group although its decoder arm consumes an operand
byte).  The sizes of the executor-revision variants, absent from the sampled
`get_size`, are modelled from the spec's opcode-length table. -/
def Instruction.get_size : Instruction → Nat
  | .Unkown _ | .NOP | .RLCA | .RRCA | .RLA | .RRA | .DAA | .CPL | .SCF | .CCF
  | .STOP | .HALT
  | .AddAR8 _ | .AdcAR8 _ | .SubAR8 _ | .SbcAR8 _ | .AndAR8 _ | .XorAR8 _
  | .OrAR8 _ | .CpAR8 _ | .IncR8 _ | .IncR16 _ | .DecR8 _ | .DecR16 _
  | .AddHlR16 _ | .LdR16memA _ | .LdAR16mem _ | .LdR8R8 _ _ => 1
  | .AddAImm8 _ | .AdcAImm8 _ | .SubAImm8 _ | .SbcAImm8 _ | .AndAImm8 _
  | .XorAImm8 _ | .OrAImm8 _ | .CpAImm8 _ | .LdR8Imm8 _ _ | .JrImm8 _
  | .JrCondImm8 _ _ => 2
  | .LdR16Imm16 _ _ | .LdAddrImm16Sp _ => 3
  | .DI | .EI | .Ret | .Reti | .RetCond _ | .JpHl | .PopR16stk _
  | .PushR16stk _ | .LdhAddrCA | .LdhAAddrC => 1
  | .LdhAddrImm8A _ | .LdhAAddrImm8 _ => 2
  | .LdAddrImm16A _ | .LdAAddrImm16 _ | .JpImm16 _ | .JpCondImm16 _ _ => 3

/-- `disassembler::DisassemblyError`. -/
inductive DisassemblyError where
  | MissingOperand : Nat → DisassemblyError
  | EOF : DisassemblyError
deriving DecidableEq, Repr

/-- `interpreter::ExecutionError`. -/
inductive ExecutionError where
  | IllegalInstructionError : Instruction → String → ExecutionError
  | MemoryOutOfBoundsError : Nat → ExecutionError

/-- Outcome of a fallible computation of the core: `ok`/`err` mirror Rust's
`Result<_, ExecutionError>`, and `crash` marks a reached Rust panic (the
`panic!` arms of the `CPU` accessors, `assert` failures, and the executor's
todo arms). -/
inductive Res (α : Type) where
  | ok : α → Res α
  | err : ExecutionError → Res α
  | crash : Res α

def Res.bind {α β : Type} : Res α → (α → Res β) → Res β
  | .ok a, f => f a
  | .err e, _ => .err e
  | .crash, _ => .crash

instance : Monad Res where
  pure := Res.ok
  bind := Res.bind

/-! ## `src/hardware/cpu.rs` -/

/-- The CPU register file: six 16-bit words plus the interrupt latch state. -/
structure CPU where
  af : Nat
  bc : Nat
  de : Nat
  hl : Nat
  sp : Nat
  pc : Nat
  ime : Bool
  ime_delay : Option Nat
deriving DecidableEq, Repr

/-- `CPU::new`. -/
def CPU.new : CPU :=
  { af := 0, bc := 0, de := 0, hl := 0, sp := 0, pc := 0x100
    ime := false, ime_delay := none }

/-- `CPU::enable_interupts`: source comment says interrupts are enabled after
the next instruction is executed; sets the delay counter to `Some(2)`. -/
def CPU.enable_interupts (cpu : CPU) : CPU :=
  { cpu with ime_delay := some 2 }

/-- `CPU::disable_interupts`. -/
def CPU.disable_interupts (cpu : CPU) : CPU :=
  { cpu with ime := false, ime_delay := none }

/-- `CPU::refresh_interupt_flag`: `Some(0)` turns IME on and clears the
counter; `Some(n)` with `n > 0` just decrements; `None` does nothing. -/
def CPU.refresh_interupt_flag (cpu : CPU) : CPU :=
  match cpu.ime_delay with
  | some 0 => { cpu with ime := true, ime_delay := none }
  | some (n + 1) => { cpu with ime_delay := some n }
  | none => cpu

/-- `CPU::read_word`; the catch-all arm of the source is a `panic!`. -/
def CPU.read_word (cpu : CPU) (register : Register) : Res Nat :=
  match register with
  | .AF => .ok cpu.af
  | .BC => .ok cpu.bc
  | .DE => .ok cpu.de
  | .HL => .ok cpu.hl
  | .SP => .ok cpu.sp
  | .PC => .ok cpu.pc
  | _ => .crash

/-- `CPU::write_word`; the catch-all arm of the source is a `panic!`. -/
def CPU.write_word (cpu : CPU) (register : Register) (word : Nat) : Res CPU :=
  match register with
  | .AF => .ok { cpu with af := word % 65536 }
  | .BC => .ok { cpu with bc := word % 65536 }
  | .DE => .ok { cpu with de := word % 65536 }
  | .HL => .ok { cpu with hl := word % 65536 }
  | .SP => .ok { cpu with sp := word % 65536 }
  | .PC => .ok { cpu with pc := word % 65536 }
  | _ => .crash

/-- `CPU::read_byte`: byte halves are extracted with `get_word_left_byte` /
`get_word_right_byte`; the catch-all arm of the source is a `panic!`. -/
def CPU.read_byte (cpu : CPU) (register : Register) : Res Nat :=
  match register with
  | .A => .ok (get_word_left_byte cpu.af)
  | .B => .ok (get_word_left_byte cpu.bc)
  | .C => .ok (get_word_right_byte cpu.bc)
  | .D => .ok (get_word_left_byte cpu.de)
  | .E => .ok (get_word_right_byte cpu.de)
  | .H => .ok (get_word_left_byte cpu.hl)
  | .L => .ok (get_word_right_byte cpu.hl)
  | _ => .crash

/-- `CPU::write_byte`; the catch-all arm of the source is a `panic!`. -/
def CPU.write_byte (cpu : CPU) (register : Register) (byte : Nat) : Res CPU :=
  match register with
  | .A => .ok { cpu with af := set_word_left_byte cpu.af byte }
  | .B => .ok { cpu with bc := set_word_left_byte cpu.bc byte }
  | .C => .ok { cpu with bc := set_word_right_byte cpu.bc byte }
  | .D => .ok { cpu with de := set_word_left_byte cpu.de byte }
  | .E => .ok { cpu with de := set_word_right_byte cpu.de byte }
  | .H => .ok { cpu with hl := set_word_left_byte cpu.hl byte }
  | .L => .ok { cpu with hl := set_word_right_byte cpu.hl byte }
  | _ => .crash

/-- `CPU::read_bit`: flags are read from `get_word_right_byte(af)` at
left-to-right indexes 0..3; the catch-all arm of the source is a `panic!`. -/
def CPU.read_bit (cpu : CPU) (register : Register) : Res Bool :=
  match register with
  | .FlagZ => .ok (get_bit_of_byte (get_word_right_byte cpu.af) 0)
  | .FlagN => .ok (get_bit_of_byte (get_word_right_byte cpu.af) 1)
  | .FlagH => .ok (get_bit_of_byte (get_word_right_byte cpu.af) 2)
  | .FlagC => .ok (get_bit_of_byte (get_word_right_byte cpu.af) 3)
  | _ => .crash

/-- `CPU::write_bit`: writes the flag with `set_bit_of_byte` at indexes 0..3
(counted from the right there) and stores the byte back with
`set_word_right_byte`; the catch-all arm of the source is a `panic!`. -/
def CPU.write_bit (cpu : CPU) (register : Register) (bit : Bool) : Res CPU :=
  match register with
  | .FlagZ => .ok { cpu with
      af := set_word_right_byte cpu.af
        (set_bit_of_byte (get_word_right_byte cpu.af) 0 bit) }
  | .FlagN => .ok { cpu with
      af := set_word_right_byte cpu.af
        (set_bit_of_byte (get_word_right_byte cpu.af) 1 bit) }
  | .FlagH => .ok { cpu with
      af := set_word_right_byte cpu.af
        (set_bit_of_byte (get_word_right_byte cpu.af) 2 bit) }
  | .FlagC => .ok { cpu with
      af := set_word_right_byte cpu.af
        (set_bit_of_byte (get_word_right_byte cpu.af) 3 bit) }
  | _ => .crash

/-- `CPU::add_word`: `wrapping_add` on a word register. -/
def CPU.add_word (cpu : CPU) (register : Register) (n : Nat) : Res CPU := do
  let v ← cpu.read_word register
  cpu.write_word register ((v + n % 65536) % 65536)

/-- `CPU::sub_word`: `wrapping_sub` on a word register. -/
def CPU.sub_word (cpu : CPU) (register : Register) (n : Nat) : Res CPU := do
  let v ← cpu.read_word register
  cpu.write_word register (((v % 65536 + 65536) - n % 65536) % 65536)

/-- `CPU::add_byte`: `wrapping_add` on a byte register. -/
def CPU.add_byte (cpu : CPU) (register : Register) (n : Nat) : Res CPU := do
  let v ← cpu.read_byte register
  cpu.write_byte register ((v + n % 256) % 256)

/-- `CPU::sub_byte`: `wrapping_sub` on a byte register. -/
def CPU.sub_byte (cpu : CPU) (register : Register) (n : Nat) : Res CPU := do
  let v ← cpu.read_byte register
  cpu.write_byte register (((v % 256 + 256) - n % 256) % 256)

/-! ## `src/hardware/memory.rs`

The 64 KiB byte vector is embedded as a function `Nat → Nat`; the program
only ever constructs the 65536-byte map (`MemoryMap::new`), so `size` is the
constant 65536.  Writes are state-passing (`MemoryMap × Res Unit`) so that
the post-state on a failed write is observable, as for Rust's `&mut self`. -/

structure MemoryMap where
  data : Nat → Nat

/-- `MemoryMap::new`: 65536 zero bytes. -/
def MemoryMap.new : MemoryMap :=
  { data := fun _ => 0 }

/-- `MemoryMap::size` (`data.len()`). -/
def MemoryMap.size (_ : MemoryMap) : Nat := 65536

/-- `MemoryMap::is_inbound_byte`. -/
def MemoryMap.is_inbound_byte (m : MemoryMap) (address : Nat) : Bool :=
  decide (m.size > address)

/-- `MemoryMap::is_inbound_word`. -/
def MemoryMap.is_inbound_word (m : MemoryMap) (address : Nat) : Bool :=
  decide (m.size > address + 1)

/-- `MemoryMap::read_byte`. -/
def MemoryMap.read_byte (m : MemoryMap) (address : Nat) : Res Nat :=
  if m.is_inbound_byte address then .ok (m.data address)
  else .err (.MemoryOutOfBoundsError address)

/-- `MemoryMap::read_word`: little-endian combination of two bytes. -/
def MemoryMap.read_word (m : MemoryMap) (address : Nat) : Res Nat :=
  if m.is_inbound_word address then
    .ok (bytes_to_word_little_endian (m.data address) (m.data (address + 1)))
  else .err (.MemoryOutOfBoundsError address)

/-- `MemoryMap::write_byte`; on a failed bounds check nothing is written. -/
def MemoryMap.write_byte (m : MemoryMap) (address byte : Nat) :
    MemoryMap × Res Unit :=
  if m.is_inbound_byte address then
    ({ data := fun a => if a = address then byte % 256 else m.data a }, .ok ())
  else (m, .err (.MemoryOutOfBoundsError address))

/-- `MemoryMap::write_word`: stores the pair given by
`word_to_bytes_little_endian` at `address` and `address + 1`; on a failed
bounds check nothing is written. -/
def MemoryMap.write_word (m : MemoryMap) (address word : Nat) :
    MemoryMap × Res Unit :=
  if m.is_inbound_word address then
    ({ data := fun a =>
        if a = address then (word_to_bytes_little_endian word).1 % 256
        else if a = address + 1 then (word_to_bytes_little_endian word).2 % 256
        else m.data a }, .ok ())
  else (m, .err (.MemoryOutOfBoundsError address))

/-- Modelled from the spec: `interpreter/mod.rs` calls `MemoryMap::add_byte`
(wrapping `+n` on the byte at `address`), which the sampled `memory.rs` does
not declare; the sampled `incr_byte` and the spec's "INC r8: wrapping +1;
for `[HL]`, operate on memory at HL" fix its semantics. -/
def MemoryMap.add_byte (m : MemoryMap) (address n : Nat) :
    MemoryMap × Res Unit :=
  match m.read_byte address with
  | .ok v => m.write_byte address ((v % 256 + n % 256) % 256)
  | .err e => (m, .err e)
  | .crash => (m, .crash)

/-- Modelled from the spec: `interpreter/mod.rs` calls `MemoryMap::sub_byte`
(wrapping `-n` on the byte at `address`), which the sampled `memory.rs` does
not declare; the sampled `decr_byte` and the spec's "DEC r8: wrapping -1;
for `[HL]`, operate on memory at HL" fix its semantics. -/
def MemoryMap.sub_byte (m : MemoryMap) (address n : Nat) :
    MemoryMap × Res Unit :=
  match m.read_byte address with
  | .ok v => m.write_byte address (((v % 256 + 256) - n % 256) % 256)
  | .err e => (m, .err e)
  | .crash => (m, .crash)

/-- Adapter from a state-passing memory write to the `Res` monad, used to
transliterate the executor's `mem_map.write_...(..)?` calls. -/
def writeRes (p : MemoryMap × Res Unit) : Res MemoryMap :=
  match p with
  | (m, .ok _) => .ok m
  | (_, .err e) => .err e
  | (_, .crash) => .crash

/-! ## Decoder (`src/interpreter/disassembler.rs`) -/

/-- `apply_mask`: bitwise or of input and mask. -/
def apply_mask (input mask : Nat) : Nat :=
  input ||| mask

/-- `apply_mask_equal`. -/
def apply_mask_equal (input mask : Nat) : Bool :=
  apply_mask input mask == mask

/-- `disassembler::get_byte`: `EOF` on an empty slice, `MissingOperand` with
the opcode byte when `index` is past the end. -/
def get_byte (bytes : List Nat) (index : Nat) : Except DisassemblyError Nat :=
  if bytes.isEmpty then .error .EOF
  else
    match bytes.get? index with
    | some b => .ok b
    | none => .error (.MissingOperand (bytes.headD 0))

/-- `block_0`: instructions whose opcode starts with bits `00`. -/
def block_0 (bytes : List Nat) : Except DisassemblyError Instruction := do
  let current ← get_byte bytes 0
  if current == 0b00000000 then pure .NOP
  else if current == 0b00000111 then pure .RLCA
  else if current == 0b00001111 then pure .RRCA
  else if current == 0b00010111 then pure .RLA
  else if current == 0b00011111 then pure .RRA
  else if current == 0b00100111 then pure .DAA
  else if current == 0b00101111 then pure .CPL
  else if current == 0b00110111 then pure .SCF
  else if current == 0b00111111 then pure .CCF
  else if current == 0b00010000 then do
    let _ ← get_byte bytes 1
    pure .STOP
  else if apply_mask current 0b00110000 == 0b00110001 then do
    let dst := R16.fromIndex (get_bits_of_byte current 2 4)
    let b1 ← get_byte bytes 1
    let b2 ← get_byte bytes 2
    pure (.LdR16Imm16 dst (bytes_to_word_little_endian b1 b2))
  else if apply_mask current 0b00110000 == 0b00110010 then
    pure (.LdR16memA (R16mem.fromIndex (get_bits_of_byte current 2 4)))
  else if apply_mask current 0b00110000 == 0b00111010 then
    pure (.LdAR16mem (R16mem.fromIndex (get_bits_of_byte current 2 4)))
  else if current == 0b00001000 then do
    let b1 ← get_byte bytes 1
    let b2 ← get_byte bytes 2
    pure (.LdAddrImm16Sp (bytes_to_word_little_endian b1 b2))
  else if apply_mask current 0b00110000 == 0b00110011 then
    pure (.IncR16 (R16.fromIndex (get_bits_of_byte current 2 4)))
  else if apply_mask current 0b00110000 == 0b00111011 then
    pure (.DecR16 (R16.fromIndex (get_bits_of_byte current 2 4)))
  else if apply_mask current 0b00110000 == 0b00111001 then
    pure (.AddHlR16 (R16.fromIndex (get_bits_of_byte current 2 4)))
  else if apply_mask current 0b00111000 == 0b00111100 then
    pure (.IncR8 (R8.fromIndex (get_bits_of_byte current 2 5)))
  else if apply_mask current 0b00111000 == 0b00111101 then
    pure (.DecR8 (R8.fromIndex (get_bits_of_byte current 2 5)))
  else if apply_mask current 0b00111000 == 0b00111110 then do
    let dst := R8.fromIndex (get_bits_of_byte current 2 5)
    let src ← get_byte bytes 1
    pure (.LdR8Imm8 dst src)
  else if current == 0b00011000 then do
    let dst ← get_byte bytes 1
    pure (.JrImm8 dst)
  else if apply_mask current 0b00011000 == 0b00111000 then do
    let cond := Cond.fromIndex (get_bits_of_byte current 3 5)
    let dst ← get_byte bytes 1
    pure (.JrCondImm8 cond dst)
  else pure (.Unkown current)

/-- `block_1`: `01xxxyyy` register-to-register loads and HALT. -/
def block_1 (bytes : List Nat) : Except DisassemblyError Instruction := do
  let current ← get_byte bytes 0
  if current == 0b01110110 then pure .HALT
  else
    let dst := R8.fromIndex (get_bits_of_byte current 2 5)
    let src := R8.fromIndex (get_bits_of_byte current 5 8)
    if dst == .AddrHL && src == .AddrHL then pure (.Unkown current)
    else pure (.LdR8R8 dst src)

/-- `block_2`: `10xxxyyy` ALU of A with an 8-bit register source. -/
def block_2 (bytes : List Nat) : Except DisassemblyError Instruction := do
  let current ← get_byte bytes 0
  let src := R8.fromIndex (get_bits_of_byte current 5 8)
  if apply_mask current 0b00000111 == 0b10000111 then pure (.AddAR8 src)
  else if apply_mask current 0b00000111 == 0b10001111 then pure (.AdcAR8 src)
  else if apply_mask current 0b00000111 == 0b10010111 then pure (.SubAR8 src)
  else if apply_mask current 0b00000111 == 0b10011111 then pure (.SbcAR8 src)
  else if apply_mask current 0b00000111 == 0b10100111 then pure (.AndAR8 src)
  else if apply_mask current 0b00000111 == 0b10101111 then pure (.XorAR8 src)
  else if apply_mask current 0b00000111 == 0b10110111 then pure (.OrAR8 src)
  else if apply_mask current 0b00000111 == 0b10111111 then pure (.CpAR8 src)
  else pure (.Unkown current)

/-- `block_3`: `11yyyyyy` opcodes covered by the sampled decoder (the ALU
immediates); everything else in the block decodes to `Unkown`. -/
def block_3 (bytes : List Nat) : Except DisassemblyError Instruction := do
  let current ← get_byte bytes 0
  if current == 0b11000110 then do
    let b ← get_byte bytes 1
    pure (.AddAImm8 b)
  else if current == 0b11001110 then do
    let b ← get_byte bytes 1
    pure (.AdcAImm8 b)
  else if current == 0b11010110 then do
    let b ← get_byte bytes 1
    pure (.SubAImm8 b)
  else if current == 0b11011110 then do
    let b ← get_byte bytes 1
    pure (.SbcAImm8 b)
  else if current == 0b11100110 then do
    let b ← get_byte bytes 1
    pure (.AndAImm8 b)
  else if current == 0b11101110 then do
    let b ← get_byte bytes 1
    pure (.XorAImm8 b)
  else if current == 0b11110110 then do
    let b ← get_byte bytes 1
    pure (.OrAImm8 b)
  else if current == 0b11111110 then do
    let b ← get_byte bytes 1
    pure (.CpAImm8 b)
  else pure (.Unkown current)

/-- `get_instruction`: dispatch on the opcode's top two bits.  The source
asserts `!bytes.is_empty()`; on an empty slice its first `get_byte` would
return `EOF` anyway and the claims only use non-empty inputs. -/
def get_instruction (bytes : List Nat) : Except DisassemblyError Instruction := do
  let current ← get_byte bytes 0
  if apply_mask_equal current 0b00111111 then block_0 bytes
  else if apply_mask current 0b00111111 == 0b01111111 then block_1 bytes
  else if apply_mask current 0b00111111 == 0b10111111 then block_2 bytes
  else if apply_mask current 0b00111111 == 0b11111111 then block_3 bytes
  else pure (.Unkown current)

/-! ## Executor (`src/interpreter/mod.rs`)

Helpers that take `&mut CPU` only are embedded as `CPU → ... → Res (CPU × Nat)`
(the `Nat` is the returned M-cycle count); helpers that also mutate the memory
map return the triple. -/

/-- `execute_di`. -/
def execute_di (cpu : CPU) : CPU × Nat :=
  (cpu.disable_interupts, 1)

/-- `execute_ei`. -/
def execute_ei (cpu : CPU) : CPU × Nat :=
  (cpu.enable_interupts, 1)

/-- `execute_jp_imm16`. -/
def execute_jp_imm16 (cpu : CPU) (word : Nat) : Res (CPU × Nat) := do
  let c ← cpu.write_word .PC word
  pure (c, 4)

/-- `execute_jp_cond_imm16`. -/
def execute_jp_cond_imm16 (cpu : CPU) (cond : Cond) (word : Nat) :
    Res (CPU × Nat) := do
  let condition := match cond with
    | .Z | .C => true
    | .NotZ | .NotC => false
  let b ← cpu.read_bit cond.intoRegister
  if b == condition then execute_jp_imm16 cpu word
  else pure (cpu, 3)

/-- `execute_jp_hl`. -/
def execute_jp_hl (cpu : CPU) : Res (CPU × Nat) := do
  let v ← cpu.read_word .HL
  let c ← cpu.write_word .PC v
  pure (c, 1)

/-- `execute_ret`: reads the word at SP, byte-swaps it with
`endianess_conversion`, writes it to PC, then `SP += 2`. -/
def execute_ret (mem_map : MemoryMap) (cpu : CPU) : Res (CPU × Nat) := do
  let sp ← cpu.read_word .SP
  let value ← mem_map.read_word sp
  let c ← cpu.write_word .PC (endianess_conversion value)
  let c ← c.add_word .SP 2
  pure (c, 4)

/-- `execute_ret_cond`. -/
def execute_ret_cond (mem_map : MemoryMap) (cpu : CPU) (cond : Cond) :
    Res (CPU × Nat) := do
  let condition := match cond with
    | .Z | .C => true
    | .NotZ | .NotC => false
  let b ← cpu.read_bit cond.intoRegister
  if b == condition then do
    let (c, _) ← execute_ret mem_map cpu
    pure (c, 5)
  else pure (cpu, 2)

/-- `execute_ld_addr_imm16_a`. -/
def execute_ld_addr_imm16_a (mem_map : MemoryMap) (cpu : CPU) (word : Nat) :
    Res (MemoryMap × CPU × Nat) := do
  let a ← cpu.read_byte .A
  let m ← writeRes (mem_map.write_byte word a)
  pure (m, cpu, 3)

/-- `execute_ld_a_addr_imm16`. -/
def execute_ld_a_addr_imm16 (mem_map : MemoryMap) (cpu : CPU) (word : Nat) :
    Res (CPU × Nat) := do
  let v ← mem_map.read_byte word
  let c ← cpu.write_byte .A v
  pure (c, 2)

/-- `execute_ldh_addr_c_a`: writes A to `0xFF00 + C`. -/
def execute_ldh_addr_c_a (mem_map : MemoryMap) (cpu : CPU) :
    Res (MemoryMap × CPU × Nat) := do
  let cv ← cpu.read_byte .C
  let a ← cpu.read_byte .A
  let m ← writeRes (mem_map.write_byte (0xFF00 + cv) a)
  pure (m, cpu, 2)

/-- `execute_ldh_a_addr_c`: reads `0xFF00 + C` into A. -/
def execute_ldh_a_addr_c (mem_map : MemoryMap) (cpu : CPU) :
    Res (CPU × Nat) := do
  let cv ← cpu.read_byte .C
  let v ← mem_map.read_byte (0xFF00 + cv)
  let c ← cpu.write_byte .A v
  pure (c, 2)

/-- `execute_ldh_addr_imm8_a`. -/
def execute_ldh_addr_imm8_a (mem_map : MemoryMap) (cpu : CPU) (byte : Nat) :
    Res (MemoryMap × CPU × Nat) := do
  let a ← cpu.read_byte .A
  let m ← writeRes (mem_map.write_byte (0xFF00 + byte) a)
  pure (m, cpu, 3)

/-- `execute_ldh_a_addr_imm8`. -/
def execute_ldh_a_addr_imm8 (mem_map : MemoryMap) (cpu : CPU) (byte : Nat) :
    Res (CPU × Nat) := do
  let v ← mem_map.read_byte (0xFF00 + byte)
  let c ← cpu.write_byte .A v
  pure (c, 3)

/-- `execute_push_r16stk`, as in the source: it READS the word of memory at
the address held in the named register, byte-swaps it, stores it into SP and
then does `SP -= 2`; the memory map (`&MemoryMap`) is never written and the
returned cycle count is 3. -/
def execute_push_r16stk (mem_map : MemoryMap) (cpu : CPU) (r16stk : R16stk) :
    Res (CPU × Nat) := do
  let reg := r16stk.intoRegister
  let rv ← cpu.read_word reg
  let value ← mem_map.read_word rv
  let c ← cpu.write_word .SP (endianess_conversion value)
  let c ← c.sub_word .SP 2
  pure (c, 3)

/-- `execute_pop_r16stk`: reads the word at SP, byte-swaps it into the named
register, then `SP += 2`; 3 cycles. -/
def execute_pop_r16stk (mem_map : MemoryMap) (cpu : CPU) (r16stk : R16stk) :
    Res (CPU × Nat) := do
  let sp ← cpu.read_word .SP
  let value ← mem_map.read_word sp
  let c ← cpu.write_word r16stk.intoRegister (endianess_conversion value)
  let c ← c.add_word .SP 2
  pure (c, 3)

/-- `execute_cp_a_imm8`: compare without writing A; the Z/H/C flag writes
only happen when the condition holds (no else branch clears them). -/
def execute_cp_a_imm8 (cpu : CPU) (byte : Nat) : Res (CPU × Nat) := do
  let prev ← cpu.read_byte .A
  let new_value := ((prev % 256 + 256) - byte % 256) % 256
  let bit_4_borrow := borrow_occurred_byte prev byte 4
  let borrow := decide (byte % 256 > prev)
  let c ← if new_value == 0 then cpu.write_bit .FlagZ true else pure cpu
  let c ← if bit_4_borrow then c.write_bit .FlagH true else pure c
  let c ← if borrow then c.write_bit .FlagC true else pure c
  let c ← c.write_bit .FlagN true
  pure (c, 2)

/-- `execute_cp_a_r8`. -/
def execute_cp_a_r8 (mem_map : MemoryMap) (cpu : CPU) (r8 : R8) :
    Res (CPU × Nat) := do
  match r8 with
  | .AddrHL => do
    let hl ← cpu.read_word .HL
    let v ← mem_map.read_byte hl
    let (c, _) ← execute_cp_a_imm8 cpu v
    pure (c, 2)
  | _ => do
    let v ← cpu.read_byte r8.intoRegister
    let (c, _) ← execute_cp_a_imm8 cpu v
    pure (c, 1)

/-- `execute_or_a_imm8`: Z is only ever set, never cleared. -/
def execute_or_a_imm8 (cpu : CPU) (byte : Nat) : Res (CPU × Nat) := do
  let a ← cpu.read_byte .A
  let c ← cpu.write_byte .A (a ||| byte % 256)
  let a2 ← c.read_byte .A
  let c ← if a2 == 0 then c.write_bit .FlagZ true else pure c
  let c ← c.write_bit .FlagN false
  let c ← c.write_bit .FlagH false
  let c ← c.write_bit .FlagC false
  pure (c, 2)

/-- `execute_or_a_r8`. -/
def execute_or_a_r8 (mem_map : MemoryMap) (cpu : CPU) (r8 : R8) :
    Res (CPU × Nat) := do
  match r8 with
  | .AddrHL => do
    let hl ← cpu.read_word .HL
    let v ← mem_map.read_byte hl
    let (c, _) ← execute_or_a_imm8 cpu v
    pure (c, 2)
  | _ => do
    let v ← cpu.read_byte r8.intoRegister
    let (c, _) ← execute_or_a_imm8 cpu v
    pure (c, 1)

/-- `execute_xor_a_imm8`: Z is only ever set, never cleared. -/
def execute_xor_a_imm8 (cpu : CPU) (byte : Nat) : Res (CPU × Nat) := do
  let a ← cpu.read_byte .A
  let c ← cpu.write_byte .A (a ^^^ byte % 256)
  let a2 ← c.read_byte .A
  let c ← if a2 == 0 then c.write_bit .FlagZ true else pure c
  let c ← c.write_bit .FlagN false
  let c ← c.write_bit .FlagH false
  let c ← c.write_bit .FlagC false
  pure (c, 2)

/-- `execute_xor_a_r8`. -/
def execute_xor_a_r8 (mem_map : MemoryMap) (cpu : CPU) (r8 : R8) :
    Res (CPU × Nat) := do
  match r8 with
  | .AddrHL => do
    let hl ← cpu.read_word .HL
    let v ← mem_map.read_byte hl
    let (c, _) ← execute_xor_a_imm8 cpu v
    pure (c, 2)
  | _ => do
    let v ← cpu.read_byte r8.intoRegister
    let (c, _) ← execute_xor_a_imm8 cpu v
    pure (c, 1)

/-- `execute_and_a_imm8`: Z is only ever set, never cleared; H is set. -/
def execute_and_a_imm8 (cpu : CPU) (byte : Nat) : Res (CPU × Nat) := do
  let a ← cpu.read_byte .A
  let c ← cpu.write_byte .A (a &&& byte % 256)
  let a2 ← c.read_byte .A
  let c ← if a2 == 0 then c.write_bit .FlagZ true else pure c
  let c ← c.write_bit .FlagN false
  let c ← c.write_bit .FlagH true
  let c ← c.write_bit .FlagC false
  pure (c, 2)

/-- `execute_and_a_r8`. -/
def execute_and_a_r8 (mem_map : MemoryMap) (cpu : CPU) (r8 : R8) :
    Res (CPU × Nat) := do
  match r8 with
  | .AddrHL => do
    let hl ← cpu.read_word .HL
    let v ← mem_map.read_byte hl
    let (c, _) ← execute_and_a_imm8 cpu v
    pure (c, 2)
  | _ => do
    let v ← cpu.read_byte r8.intoRegister
    let (c, _) ← execute_and_a_imm8 cpu v
    pure (c, 1)

/-- `execute_sub_a_imm8`: the Z/H/C flag writes only happen when the
condition holds (no else branch clears them); N is set. -/
def execute_sub_a_imm8 (cpu : CPU) (byte : Nat) : Res (CPU × Nat) := do
  let prev ← cpu.read_byte .A
  let c ← cpu.sub_byte .A byte
  let new_value ← c.read_byte .A
  let bit_4_borrow := borrow_occurred_byte prev byte 4
  let borrow := decide (byte % 256 > prev)
  let c ← if new_value == 0 then c.write_bit .FlagZ true else pure c
  let c ← if bit_4_borrow then c.write_bit .FlagH true else pure c
  let c ← if borrow then c.write_bit .FlagC true else pure c
  let c ← c.write_bit .FlagN true
  pure (c, 2)

/-- `execute_sub_a_r8`. -/
def execute_sub_a_r8 (mem_map : MemoryMap) (cpu : CPU) (r8 : R8) :
    Res (CPU × Nat) := do
  match r8 with
  | .AddrHL => do
    let hl ← cpu.read_word .HL
    let v ← mem_map.read_byte hl
    let (c, _) ← execute_sub_a_imm8 cpu v
    pure (c, 2)
  | _ => do
    let v ← cpu.read_byte r8.intoRegister
    let (c, _) ← execute_sub_a_imm8 cpu v
    pure (c, 1)

/-- `execute_sbc_a_imm8`: folds the carry into the operand with
`wrapping_sub` before delegating to `execute_sub_a_imm8`. -/
def execute_sbc_a_imm8 (cpu : CPU) (byte : Nat) : Res (CPU × Nat) := do
  let cf ← cpu.read_bit .FlagC
  let sub_c := if cf then 1 else 0
  let (c, _) ← execute_sub_a_imm8 cpu (((byte % 256 + 256) - sub_c) % 256)
  pure (c, 2)

/-- `execute_sbc_a_r8`. -/
def execute_sbc_a_r8 (mem_map : MemoryMap) (cpu : CPU) (r8 : R8) :
    Res (CPU × Nat) := do
  let cf ← cpu.read_bit .FlagC
  let sub_c := if cf then 1 else 0
  match r8 with
  | .AddrHL => do
    let hl ← cpu.read_word .HL
    let v ← mem_map.read_byte hl
    let (c, _) ← execute_sub_a_imm8 cpu (((v % 256 + 256) - sub_c) % 256)
    pure (c, 2)
  | _ => do
    let v ← cpu.read_byte r8.intoRegister
    let (c, _) ← execute_sub_a_imm8 cpu (((v % 256 + 256) - sub_c) % 256)
    pure (c, 1)

/-- `execute_add_a_imm8`: the Z/H/C flag writes only happen when the
condition holds (no else branch clears them); N is cleared. -/
def execute_add_a_imm8 (cpu : CPU) (byte : Nat) : Res (CPU × Nat) := do
  let prev ← cpu.read_byte .A
  let c ← cpu.add_byte .A byte
  let new_value ← c.read_byte .A
  let bit_3_overflow := overflow_occured_byte prev byte new_value 3
  let bit_7_overflow := overflow_occured_byte prev byte new_value 7
  let c ← if new_value == 0 then c.write_bit .FlagZ true else pure c
  let c ← if bit_3_overflow then c.write_bit .FlagH true else pure c
  let c ← if bit_7_overflow then c.write_bit .FlagC true else pure c
  let c ← c.write_bit .FlagN false
  pure (c, 2)

/-- `execute_add_a_r8`. -/
def execute_add_a_r8 (mem_map : MemoryMap) (cpu : CPU) (r8 : R8) :
    Res (CPU × Nat) := do
  match r8 with
  | .AddrHL => do
    let hl ← cpu.read_word .HL
    let v ← mem_map.read_byte hl
    let (c, _) ← execute_add_a_imm8 cpu v
    pure (c, 2)
  | _ => do
    let v ← cpu.read_byte r8.intoRegister
    let (c, _) ← execute_add_a_imm8 cpu v
    pure (c, 1)

/-- `execute_adc_a_imm8`: folds the carry into the operand with
`wrapping_add` before delegating to `execute_add_a_imm8`. -/
def execute_adc_a_imm8 (cpu : CPU) (byte : Nat) : Res (CPU × Nat) := do
  let cf ← cpu.read_bit .FlagC
  let add_c := if cf then 1 else 0
  let (c, _) ← execute_add_a_imm8 cpu ((byte % 256 + add_c) % 256)
  pure (c, 2)

/-- `execute_adc_a_r8`. -/
def execute_adc_a_r8 (mem_map : MemoryMap) (cpu : CPU) (r8 : R8) :
    Res (CPU × Nat) := do
  let cf ← cpu.read_bit .FlagC
  let add_c := if cf then 1 else 0
  match r8 with
  | .AddrHL => do
    let hl ← cpu.read_word .HL
    let v ← mem_map.read_byte hl
    let (c, _) ← execute_add_a_imm8 cpu ((v % 256 + add_c) % 256)
    pure (c, 2)
  | _ => do
    let v ← cpu.read_byte r8.intoRegister
    let (c, _) ← execute_add_a_imm8 cpu ((v % 256 + add_c) % 256)
    pure (c, 1)

/-- `execute_ld_r8_r8`: `LD [HL], [HL]` is an execution error; note the
store branch (`dst = [HL]`) reads `cpu.read_byte(dst.into())`, i.e.
`read_byte(HL)`, which in the source is the `panic!` arm. -/
def execute_ld_r8_r8 (mem_map : MemoryMap) (cpu : CPU) (dst src : R8) :
    Res (MemoryMap × CPU × Nat) := do
  if dst == .AddrHL && src == .AddrHL then
    .err (.IllegalInstructionError (.LdR8R8 dst src) "ld [hl], [hl] is illegal")
  else if src == .AddrHL then do
    let hl ← cpu.read_word .HL
    let v ← mem_map.read_byte hl
    let c ← cpu.write_byte dst.intoRegister v
    pure (mem_map, c, 1)
  else if dst == .AddrHL then do
    let hl ← cpu.read_word .HL
    let v ← cpu.read_byte dst.intoRegister
    let m ← writeRes (mem_map.write_byte hl v)
    pure (m, cpu, 1)
  else do
    let v ← cpu.read_byte src.intoRegister
    let c ← cpu.write_byte dst.intoRegister v
    pure (mem_map, c, 1)

/-- `execute_add_hl_r16`: N is cleared; the H/C writes only happen when the
overflow condition holds (never cleared); Z untouched. -/
def execute_add_hl_r16 (cpu : CPU) (r16 : R16) : Res (CPU × Nat) := do
  let added ← cpu.read_word r16.intoRegister
  let prev_value ← cpu.read_word .HL
  let c ← cpu.add_word .HL added
  let new_value ← c.read_word .HL
  let c ← c.write_bit .FlagN false
  let bit_11_overflow := overflow_occured_word prev_value added new_value 11
  let bit_15_overflow := overflow_occured_word prev_value added new_value 15
  let c ← if bit_11_overflow then c.write_bit .FlagH true else pure c
  let c ← if bit_15_overflow then c.write_bit .FlagC true else pure c
  pure (c, 2)

/-- `execute_stop`: a stub in the source that returns 0 cycles. -/
def execute_stop : Nat := 0

/-- `execute_ccf`. -/
def execute_ccf (cpu : CPU) : Res (CPU × Nat) := do
  let c ← cpu.write_bit .FlagN false
  let c ← c.write_bit .FlagH false
  let cf ← c.read_bit .FlagC
  let c ← c.write_bit .FlagC (!cf)
  pure (c, 1)

/-- `execute_scf`. -/
def execute_scf (cpu : CPU) : Res (CPU × Nat) := do
  let c ← cpu.write_bit .FlagN false
  let c ← c.write_bit .FlagH false
  let c ← c.write_bit .FlagC true
  pure (c, 1)

/-- `execute_cpl`: `A := !A`; N and H set. -/
def execute_cpl (cpu : CPU) : Res (CPU × Nat) := do
  let a ← cpu.read_byte .A
  let c ← cpu.write_byte .A (255 ^^^ a % 256)
  let c ← c.write_bit .FlagN true
  let c ← c.write_bit .FlagH true
  pure (c, 1)

/-- `execute_daa`: BCD adjust; note that on the add branch's carry
adjustment the source calls `cpu.write_bit(&A, true)`, whose catch-all arm
is a `panic!` (register A is not a flag). -/
def execute_daa (cpu : CPU) : Res (CPU × Nat) := do
  let n ← cpu.read_bit .FlagN
  let c ←
    if n then do
      let h ← cpu.read_bit .FlagH
      let adj1 := if h then 6 else 0
      let cf ← cpu.read_bit .FlagC
      let adj2 := if cf then adj1 + 96 else adj1
      cpu.sub_byte .A adj2
    else do
      let a_value ← cpu.read_byte .A
      let h ← cpu.read_bit .FlagH
      let adj1 := if h || decide (a_value &&& 15 > 9) then 6 else 0
      let cf ← cpu.read_bit .FlagC
      if cf || decide (a_value > 153) then do
        let c ← cpu.write_bit .A true
        c.add_byte .A (adj1 + 96)
      else
        cpu.add_byte .A adj1
  let av ← c.read_byte .A
  let c ← c.write_bit .FlagZ (av == 0)
  let c ← c.write_bit .FlagH false
  pure (c, 1)

/-- `execute_rla`: rotate A left through carry. -/
def execute_rla (cpu : CPU) : Res (CPU × Nat) := do
  let value ← cpu.read_byte .A
  let left_bit := get_bit_of_byte value 0
  let cf ← cpu.read_bit .FlagC
  let c ← cpu.write_byte .A (set_bit_of_byte ((value <<< 1) % 256) 7 cf)
  let c ← c.write_bit .FlagZ false
  let c ← c.write_bit .FlagN false
  let c ← c.write_bit .FlagH false
  let c ← c.write_bit .FlagC left_bit
  pure (c, 1)

/-- `execute_rra`: rotate A right through carry. -/
def execute_rra (cpu : CPU) : Res (CPU × Nat) := do
  let value ← cpu.read_byte .A
  let right_bit := get_bit_of_byte value 7
  let cf ← cpu.read_bit .FlagC
  let c ← cpu.write_byte .A (set_bit_of_byte ((value % 256) >>> 1) 0 cf)
  let c ← c.write_bit .FlagZ false
  let c ← c.write_bit .FlagN false
  let c ← c.write_bit .FlagH false
  let c ← c.write_bit .FlagC right_bit
  pure (c, 1)

/-- `execute_rlca`: rotate A left. -/
def execute_rlca (cpu : CPU) : Res (CPU × Nat) := do
  let value ← cpu.read_byte .A
  let left_bit := get_bit_of_byte value 0
  let c ← cpu.write_byte .A (((value <<< 1) % 256) ||| ((value % 256) >>> 7))
  let c ← c.write_bit .FlagZ false
  let c ← c.write_bit .FlagN false
  let c ← c.write_bit .FlagH false
  let c ← c.write_bit .FlagC left_bit
  pure (c, 1)

/-- `execute_rrca`: rotate A right. -/
def execute_rrca (cpu : CPU) : Res (CPU × Nat) := do
  let value ← cpu.read_byte .A
  let right_bit := get_bit_of_byte value 7
  let c ← cpu.write_byte .A (((value % 256) >>> 1) ||| ((value <<< 7) % 256))
  let c ← c.write_bit .FlagZ false
  let c ← c.write_bit .FlagN false
  let c ← c.write_bit .FlagH false
  let c ← c.write_bit .FlagC right_bit
  pure (c, 1)

/-- `execute_jr`: sign-extends the offset and adds it to PC (wrapping). -/
def execute_jr (cpu : CPU) (offset : Nat) : Res (CPU × Nat) := do
  if offset % 256 < 128 then do
    let c ← cpu.add_word .PC (offset % 256)
    pure (c, 2)
  else do
    let c ← cpu.sub_word .PC (256 - offset % 256)
    pure (c, 2)

/-- `execute_jr_cond`, as in the source: the branch decision reads
`cpu.read_bit(&Cond::Z.into())` — the Z flag — for every condition,
including NC and C. -/
def execute_jr_cond (cpu : CPU) (cond : Cond) (offset : Nat) :
    Res (CPU × Nat) := do
  let condition := match cond with
    | .Z | .C => true
    | .NotZ | .NotC => false
  let z ← cpu.read_bit (Cond.Z).intoRegister
  if z != condition then pure (cpu, 2)
  else do
    let (c, _) ← execute_jr cpu offset
    pure (c, 3)

/-- `execute_inc_r8`: for `[HL]` the source computes the address with
`cpu.read_byte(&Register::HL)` (the `panic!` arm); for plain registers a
wrapping `+1` with set-only Z/H flag updates; N cleared at the end. -/
def execute_inc_r8 (mem_map : MemoryMap) (cpu : CPU) (r8 : R8) :
    Res (MemoryMap × CPU × Nat) := do
  let (m, c, cycles) ← (match r8 with
    | .AddrHL => do
      let address ← cpu.read_byte .HL
      let prev_value ← mem_map.read_byte address
      let m ← writeRes (mem_map.add_byte address 1)
      let new_value ← m.read_byte address
      let c ← if new_value == 0 then cpu.write_bit .FlagZ true else pure cpu
      let c ← if get_bit_of_byte prev_value 4 && !(get_bit_of_byte new_value 4)
        then c.write_bit .FlagH true else pure c
      pure (m, c, 3)
    | _ => do
      let register := r8.intoRegister
      let prev_value ← cpu.read_byte register
      let c ← cpu.add_byte register 1
      let new_value ← c.read_byte register
      let c ← if new_value == 0 then c.write_bit .FlagZ true else pure c
      let c ← if get_bit_of_byte prev_value 4 && !(get_bit_of_byte new_value 4)
        then c.write_bit .FlagH true else pure c
      pure (mem_map, c, 1) : Res (MemoryMap × CPU × Nat))
  let c ← c.write_bit .FlagN false
  pure (m, c, cycles)

/-- `execute_dec_r8`: for `[HL]` the source computes the address with
`cpu.read_byte(&Register::HL)` (the `panic!` arm) and decrements memory; for
plain registers the source calls `cpu.add_byte(register, 1)` — an increment,
not a decrement; N set at the end. -/
def execute_dec_r8 (mem_map : MemoryMap) (cpu : CPU) (r8 : R8) :
    Res (MemoryMap × CPU × Nat) := do
  let (m, c, cycles) ← (match r8 with
    | .AddrHL => do
      let address ← cpu.read_byte .HL
      let prev_value ← mem_map.read_byte address
      let m ← writeRes (mem_map.sub_byte address 1)
      let new_value ← m.read_byte address
      let c ← if new_value == 0 then cpu.write_bit .FlagZ true else pure cpu
      let c ← if get_bit_of_byte prev_value 4 && !(get_bit_of_byte new_value 4)
        then c.write_bit .FlagH true else pure c
      pure (m, c, 3)
    | _ => do
      let register := r8.intoRegister
      let prev_value ← cpu.read_byte register
      let c ← cpu.add_byte register 1
      let new_value ← c.read_byte register
      let c ← if new_value == 0 then c.write_bit .FlagZ true else pure c
      let c ← if get_bit_of_byte prev_value 3 && !(get_bit_of_byte new_value 3)
        then c.write_bit .FlagH true else pure c
      pure (mem_map, c, 1) : Res (MemoryMap × CPU × Nat))
  let c ← c.write_bit .FlagN true
  pure (m, c, cycles)

/-- `execute_inc_dec_r16`: wrapping `±1` on a word register, flags untouched. -/
def execute_inc_dec_r16 (mem_map : MemoryMap) (cpu : CPU) (r16 : R16)
    (inc : Bool) : Res (MemoryMap × CPU × Nat) := do
  let c ← if inc then cpu.add_word r16.intoRegister 1
    else cpu.sub_word r16.intoRegister 1
  pure (mem_map, c, 2)

/-- `handle_r16mem_add_or_decr`: post-increment/decrement of HL. -/
def handle_r16mem_add_or_decr (cpu : CPU) (r16mem : R16mem) : Res CPU :=
  match r16mem with
  | .IncrHL => cpu.add_word .HL 1
  | .DecrHL => cpu.sub_word .HL 1
  | _ => .ok cpu

/-- `execute_ld_r16_imm16`; the source asserts the variant (a mismatch is a
Rust panic, embedded as `crash`). -/
def execute_ld_r16_imm16 (mem_map : MemoryMap) (cpu : CPU)
    (instruction : Instruction) : Res (MemoryMap × CPU × Nat) := do
  match instruction with
  | .LdR16Imm16 dst src => do
    let c ← cpu.write_word dst.intoRegister src
    pure (mem_map, c, 3)
  | _ => .crash

/-- `execute_ld_r16mem_a`; the source asserts the variant. -/
def execute_ld_r16mem_a (mem_map : MemoryMap) (cpu : CPU)
    (instruction : Instruction) : Res (MemoryMap × CPU × Nat) := do
  match instruction with
  | .LdR16memA dst => do
    let address ← cpu.read_word dst.intoRegister
    let a ← cpu.read_byte .A
    let m ← writeRes (mem_map.write_byte address a)
    let c ← handle_r16mem_add_or_decr cpu dst
    pure (m, c, 2)
  | _ => .crash

/-- `execute_ld_a_r16mem`; the source asserts the variant. -/
def execute_ld_a_r16mem (mem_map : MemoryMap) (cpu : CPU)
    (instruction : Instruction) : Res (MemoryMap × CPU × Nat) := do
  match instruction with
  | .LdAR16mem src => do
    let address ← cpu.read_word src.intoRegister
    let v ← mem_map.read_byte address
    let c ← cpu.write_byte .A v
    let c ← handle_r16mem_add_or_decr c src
    pure (mem_map, c, 2)
  | _ => .crash

/-- `execute_ld_addrimm16_sp`: writes SP to memory at the immediate address
with `MemoryMap::write_word`; 5 cycles.  The source asserts the variant. -/
def execute_ld_addrimm16_sp (mem_map : MemoryMap) (cpu : CPU)
    (instruction : Instruction) : Res (MemoryMap × CPU × Nat) := do
  match instruction with
  | .LdAddrImm16Sp dst => do
    let sp ← cpu.read_word .SP
    let m ← writeRes (mem_map.write_word dst sp)
    pure (m, cpu, 5)
  | _ => .crash

/-- `execute_ld_r8_imm8`; the source asserts the variant. -/
def execute_ld_r8_imm8 (mem_map : MemoryMap) (cpu : CPU)
    (instruction : Instruction) : Res (MemoryMap × CPU × Nat) := do
  match instruction with
  | .LdR8Imm8 dst src =>
    match dst with
    | .AddrHL => do
      let hl ← cpu.read_word .HL
      let m ← writeRes (mem_map.write_byte hl src)
      pure (m, cpu, 2)
    | _ => do
      let c ← cpu.write_byte dst.intoRegister src
      pure (mem_map, c, 2)
  | _ => .crash

/-- Lifts a CPU-only executor result to the full triple, for the `execute`
dispatch below. -/
def withMem (mem_map : MemoryMap) (r : Res (CPU × Nat)) :
    Res (MemoryMap × CPU × Nat) :=
  match r with
  | .ok (c, n) => .ok (mem_map, c, n)
  | .err e => .err e
  | .crash => .crash

/-- `interpreter::execute`: dispatch over the instruction.  `Unkown` is an
`IllegalInstructionError`; the `HALT` and `Reti` arms of the source are
todo stubs that abort (embedded as `crash`). -/
def execute (mem_map : MemoryMap) (cpu : CPU) (instruction : Instruction) :
    Res (MemoryMap × CPU × Nat) :=
  match instruction with
  | .Unkown _ => .err (.IllegalInstructionError instruction
      "Instruction is unkown or has not yet been implemented")
  | .NOP => .ok (mem_map, cpu, 1)
  | .RLCA => withMem mem_map (execute_rlca cpu)
  | .RRCA => withMem mem_map (execute_rrca cpu)
  | .RLA => withMem mem_map (execute_rla cpu)
  | .RRA => withMem mem_map (execute_rra cpu)
  | .DAA => withMem mem_map (execute_daa cpu)
  | .CPL => withMem mem_map (execute_cpl cpu)
  | .SCF => withMem mem_map (execute_scf cpu)
  | .CCF => withMem mem_map (execute_ccf cpu)
  | .STOP => .ok (mem_map, cpu, execute_stop)
  | .HALT => .crash
  | .DI => .ok (mem_map, (execute_di cpu).1, (execute_di cpu).2)
  | .EI => .ok (mem_map, (execute_ei cpu).1, (execute_ei cpu).2)
  | .LdR16Imm16 _ _ => execute_ld_r16_imm16 mem_map cpu instruction
  | .LdR16memA _ => execute_ld_r16mem_a mem_map cpu instruction
  | .LdAR16mem _ => execute_ld_a_r16mem mem_map cpu instruction
  | .LdAddrImm16Sp _ => execute_ld_addrimm16_sp mem_map cpu instruction
  | .LdR8Imm8 _ _ => execute_ld_r8_imm8 mem_map cpu instruction
  | .LdR8R8 dst src => execute_ld_r8_r8 mem_map cpu dst src
  | .LdAddrImm16A word => execute_ld_addr_imm16_a mem_map cpu word
  | .LdAAddrImm16 word => withMem mem_map (execute_ld_a_addr_imm16 mem_map cpu word)
  | .LdhAddrCA => execute_ldh_addr_c_a mem_map cpu
  | .LdhAAddrC => withMem mem_map (execute_ldh_a_addr_c mem_map cpu)
  | .LdhAddrImm8A byte => execute_ldh_addr_imm8_a mem_map cpu byte
  | .LdhAAddrImm8 byte => withMem mem_map (execute_ldh_a_addr_imm8 mem_map cpu byte)
  | .IncR8 r8 => execute_inc_r8 mem_map cpu r8
  | .IncR16 r16 => execute_inc_dec_r16 mem_map cpu r16 true
  | .DecR8 r8 => execute_dec_r8 mem_map cpu r8
  | .DecR16 r16 => execute_inc_dec_r16 mem_map cpu r16 false
  | .AddHlR16 r16 => withMem mem_map (execute_add_hl_r16 cpu r16)
  | .AddAR8 r8 => withMem mem_map (execute_add_a_r8 mem_map cpu r8)
  | .AdcAR8 r8 => withMem mem_map (execute_adc_a_r8 mem_map cpu r8)
  | .SubAR8 r8 => withMem mem_map (execute_sub_a_r8 mem_map cpu r8)
  | .SbcAR8 r8 => withMem mem_map (execute_sbc_a_r8 mem_map cpu r8)
  | .AndAR8 r8 => withMem mem_map (execute_and_a_r8 mem_map cpu r8)
  | .XorAR8 r8 => withMem mem_map (execute_xor_a_r8 mem_map cpu r8)
  | .OrAR8 r8 => withMem mem_map (execute_or_a_r8 mem_map cpu r8)
  | .CpAR8 r8 => withMem mem_map (execute_cp_a_r8 mem_map cpu r8)
  | .AddAImm8 byte => withMem mem_map (execute_add_a_imm8 cpu byte)
  | .AdcAImm8 byte => withMem mem_map (execute_adc_a_imm8 cpu byte)
  | .SubAImm8 byte => withMem mem_map (execute_sub_a_imm8 cpu byte)
  | .SbcAImm8 byte => withMem mem_map (execute_sbc_a_imm8 cpu byte)
  | .AndAImm8 byte => withMem mem_map (execute_and_a_imm8 cpu byte)
  | .XorAImm8 byte => withMem mem_map (execute_xor_a_imm8 cpu byte)
  | .OrAImm8 byte => withMem mem_map (execute_or_a_imm8 cpu byte)
  | .CpAImm8 byte => withMem mem_map (execute_cp_a_imm8 cpu byte)
  | .Ret => withMem mem_map (execute_ret mem_map cpu)
  | .Reti => .crash
  | .RetCond cond => withMem mem_map (execute_ret_cond mem_map cpu cond)
  | .JpImm16 word => withMem mem_map (execute_jp_imm16 cpu word)
  | .JpCondImm16 cond word => withMem mem_map (execute_jp_cond_imm16 cpu cond word)
  | .JpHl => withMem mem_map (execute_jp_hl cpu)
  | .JrImm8 offset => withMem mem_map (execute_jr cpu offset)
  | .JrCondImm8 cond offset => withMem mem_map (execute_jr_cond cpu cond offset)
  | .PopR16stk r16stk => withMem mem_map (execute_pop_r16stk mem_map cpu r16stk)
  | .PushR16stk r16stk => withMem mem_map (execute_push_r16stk mem_map cpu r16stk)

/-! ## Claims -/

/-- Claim C1: the claim states that after `write_word(BC, v)`, `read_byte(B)`
returns the high and `read_byte(C)` the low byte of `v`.  Evaluating the code
at `v = 0x1234`: both reads return `0x34`, the LOW byte, because
`get_word_right_byte` has the same body as `get_word_left_byte` and
`word_to_bytes_big_endian` returns its pair in `(low, high)` order against
its own doc comment; the claimed value for `read_byte(B)` is `0x12`. -/
theorem claim_C1 :
    ((CPU.new.write_word .BC 0x1234).bind fun c => c.read_byte .B) = .ok 0x34 ∧
    ((CPU.new.write_word .BC 0x1234).bind fun c => c.read_byte .C) = .ok 0x34 :=
  ⟨rfl, rfl⟩

/-- Claim C2: the claim states that ADD A,b sets Z iff the 8-bit result is 0
(and sets C, H, clears N accordingly).  Evaluating the code at `A = 0, b = 0`
with all flags clear (`AF = 0`): the sum is 0, so the claim requires Z set,
but afterwards `read_bit(FlagZ)` is `false` and `read_byte(A)` is 1 — the
flag writes go through mismatched bit indexes and `set_word_right_byte`,
which scrambles AF to `0x0101`. -/
theorem claim_C2 :
    ((execute_add_a_imm8 CPU.new 0).bind fun p => p.1.read_bit .FlagZ) = .ok false ∧
    ((execute_add_a_imm8 CPU.new 0).bind fun p => p.1.read_byte .A) = .ok 1 ∧
    execute_add_a_imm8 CPU.new 0 = .ok ({ CPU.new with af := 0x0101 }, 2) :=
  ⟨rfl, rfl, rfl⟩

/-- Claim C3: the claim states that with SP=0xFFFE, BC=0x1234, PUSH BC leaves
SP=0xFFFC, memory[0xFFFC]=0x34, memory[0xFFFD]=0x12 and 4 cycles, and POP BC
restores BC.  Evaluating the code on zeroed memory: PUSH reads the memory
word AT address BC, byte-swaps it into SP and subtracts 2 — here leaving the
CPU exactly as it started (SP still 0xFFFE), writing no memory at all (the
map is taken by shared reference), and returning 3 cycles; POP from
SP=0xFFFE leaves BC=0 and wraps SP to 0. -/
theorem claim_C3 :
    execute_push_r16stk MemoryMap.new
        { CPU.new with sp := 0xFFFE, bc := 0x1234 } .BC
      = .ok ({ CPU.new with sp := 0xFFFE, bc := 0x1234 }, 3) ∧
    execute_pop_r16stk MemoryMap.new { CPU.new with sp := 0xFFFE } .BC
      = .ok (CPU.new, 3) :=
  ⟨rfl, rfl⟩

/-- Claim C4: the claim states DEC A with A=0x01 yields A=0x00, Z=1, N=1,
H=0 and C unchanged (i.e. AF = 0x00C0 in the hardware layout).  Evaluating
the code at `AF = 0x0100`: the plain-register branch of `execute_dec_r8`
calls `add_byte` (an increment) on the scrambled byte accessors, and the
final AF is `0x0103` — the A half is not decremented and the Z bit of F is
not set. -/
theorem claim_C4 :
    execute_dec_r8 MemoryMap.new { CPU.new with af := 0x0100 } .A
      = .ok (MemoryMap.new, { CPU.new with af := 0x0103 }, 1) :=
  rfl

/-- Claim C5: the claim states JR cond for cond ∈ {NC, C} decides the branch
from the carry flag, taken iff C is set for cond = C, with 3 cycles taken / 2
not taken.  Evaluating the code at `F = 0x10` (carry set, zero clear) with
cond = C: `read_bit(FlagC)` is `true`, so the claim requires the branch taken
(3 cycles, PC moved), but `execute_jr_cond` reads the Z flag for every
condition and returns 2 cycles with PC unchanged. -/
theorem claim_C5 :
    (({ CPU.new with af := 0x0010, pc := 0x0100 } : CPU).read_bit .FlagC)
      = .ok true ∧
    execute_jr_cond { CPU.new with af := 0x0010, pc := 0x0100 } .C 5
      = .ok ({ CPU.new with af := 0x0010, pc := 0x0100 }, 2) :=
  ⟨rfl, rfl⟩

/-- Claim C6: the claim states a decoded instruction's reported length equals
the bytes consumed, and that STOP reports length 2.  Evaluating the code on
`[0x10, 0x00]`: the decoder consumes two bytes for STOP (on the one-byte
slice `[0x10]` it fails with `MissingOperand`), yet `get_size` lists STOP in
the 1-byte group and reports 1. -/
theorem claim_C6 :
    get_instruction [0x10, 0x00] = .ok .STOP ∧
    get_instruction [0x10] = .error (.MissingOperand 0x10) ∧
    Instruction.get_size .STOP = 1 :=
  ⟨rfl, rfl, rfl⟩

/-- Claim C7: the claim states that after `enable_interupts` the pending
counter is 2, refreshing decrements it, and IME becomes true on the counter's
transition to 0 — so true after two refresh calls.  Evaluating the code: the
counter goes `Some 2 → Some 1 → Some 0` and IME is still false after the
second refresh; only a third call (seeing `Some 0`) turns IME on. -/
theorem claim_C7 :
    (CPU.new.enable_interupts).ime_delay = some 2 ∧
    (CPU.new.enable_interupts.refresh_interupt_flag).ime_delay = some 1 ∧
    (CPU.new.enable_interupts.refresh_interupt_flag.refresh_interupt_flag).ime_delay
      = some 0 ∧
    (CPU.new.enable_interupts.refresh_interupt_flag.refresh_interupt_flag).ime
      = false ∧
    (CPU.new.enable_interupts.refresh_interupt_flag.refresh_interupt_flag.refresh_interupt_flag).ime
      = true :=
  ⟨rfl, rfl, rfl, rfl, rfl⟩

/-- Claim C8: the claim states LD [d], SP stores SP little-endian
(memory[0x8000] = 0x34, memory[0x8001] = 0x12 for SP = 0x1234) in 5 cycles.
Evaluating the code: `word_to_bytes_little_endian` returns `(high, low)`
against its own doc comment, so the bytes land big-endian:
memory[0x8000] = 0x12 and memory[0x8001] = 0x34 (the cycle count 5 matches). -/
theorem claim_C8 :
    ((execute_ld_addrimm16_sp MemoryMap.new { CPU.new with sp := 0x1234 }
        (.LdAddrImm16Sp 0x8000)).bind fun r =>
          .ok (r.1.data 0x8000, r.1.data 0x8001, r.2.2))
      = .ok (0x12, 0x34, 5) :=
  rfl

/-- Claim C10: the claim states `execute` always returns Ok or an
ExecutionError and never reaches a panic or todo path, naming HALT, RETI,
DAA's carry-adjust branch and INC/DEC [HL].  Evaluating the code: HALT and
RETI are todo stubs; DAA with `AF = 0x009A` (N clear, A-byte > 0x99) reaches
`write_bit(&A, true)` whose catch-all arm is a panic; INC [HL] computes its
address with `read_byte(&HL)`, also the panic arm.  All four abort. -/
theorem claim_C10 :
    execute MemoryMap.new CPU.new .HALT = .crash ∧
    execute MemoryMap.new CPU.new .Reti = .crash ∧
    execute MemoryMap.new { CPU.new with hl := 0x20 } (.IncR8 .AddrHL) = .crash ∧
    execute MemoryMap.new { CPU.new with af := 0x009A } .DAA = .crash :=
  ⟨rfl, rfl, rfl, rfl⟩

/-- Claim C9: for the 65536-byte memory map, byte reads and writes succeed
for every address up to 0xFFFF, word reads and writes fail with
`MemoryOutOfBoundsError` exactly when the address is at least 0xFFFF (and
succeed below), and a failed write leaves every memory cell unchanged. -/
theorem claim_C9 (m : MemoryMap) (a v : Nat) :
    (a ≤ 0xFFFF →
      m.read_byte a = .ok (m.data a) ∧
      (m.write_byte a v).2 = .ok () ∧
      ((m.write_byte a v).1).data a = v % 256) ∧
    (a ≤ 0xFFFE →
      m.read_word a
        = .ok (bytes_to_word_little_endian (m.data a) (m.data (a + 1))) ∧
      (m.write_word a v).2 = .ok ()) ∧
    (0xFFFF ≤ a →
      m.read_word a = .err (.MemoryOutOfBoundsError a) ∧
      (m.write_word a v).2 = .err (.MemoryOutOfBoundsError a) ∧
      (m.write_word a v).1 = m) ∧
    (0x10000 ≤ a →
      m.read_byte a = .err (.MemoryOutOfBoundsError a) ∧
      (m.write_byte a v).2 = .err (.MemoryOutOfBoundsError a) ∧
      (m.write_byte a v).1 = m) := by
  refine ⟨fun h => ?_, fun h => ?_, fun h => ?_, fun h => ?_⟩
  · have hb : m.is_inbound_byte a = true := by
      simp only [MemoryMap.is_inbound_byte, MemoryMap.size, decide_eq_true_eq]
      omega
    refine ⟨?_, ?_, ?_⟩
    · simp [MemoryMap.read_byte, hb]
    · simp [MemoryMap.write_byte, hb]
    · simp [MemoryMap.write_byte, hb]
  · have hw : m.is_inbound_word a = true := by
      simp only [MemoryMap.is_inbound_word, MemoryMap.size, decide_eq_true_eq]
      omega
    exact ⟨by simp [MemoryMap.read_word, hw], by simp [MemoryMap.write_word, hw]⟩
  · have hw : m.is_inbound_word a = false := by
      simp only [MemoryMap.is_inbound_word, MemoryMap.size,
        decide_eq_false_iff_not]
      omega
    exact ⟨by simp [MemoryMap.read_word, hw], by simp [MemoryMap.write_word, hw],
      by simp [MemoryMap.write_word, hw]⟩
  · have hb : m.is_inbound_byte a = false := by
      simp only [MemoryMap.is_inbound_byte, MemoryMap.size,
        decide_eq_false_iff_not]
      omega
    exact ⟨by simp [MemoryMap.read_byte, hb], by simp [MemoryMap.write_byte, hb],
      by simp [MemoryMap.write_byte, hb]⟩

/-- Witness for claim C9: the quantified theorem applied at the boundary
addresses 0xFFFF / 0xFFFE on the freshly constructed memory map. -/
theorem claim_C9_witness :
    MemoryMap.new.read_byte 0xFFFF = .ok (MemoryMap.new.data 0xFFFF) ∧
    MemoryMap.new.read_word 0xFFFE
      = .ok (bytes_to_word_little_endian (MemoryMap.new.data 0xFFFE)
          (MemoryMap.new.data 0xFFFF)) ∧
    MemoryMap.new.read_word 0xFFFF = .err (.MemoryOutOfBoundsError 0xFFFF) ∧
    (MemoryMap.new.write_word 0xFFFF 5).1 = MemoryMap.new :=
  ⟨((claim_C9 MemoryMap.new 0xFFFF 5).1 (by decide)).1,
   ((claim_C9 MemoryMap.new 0xFFFE 5).2.1 (by decide)).1,
   ((claim_C9 MemoryMap.new 0xFFFF 5).2.2.1 (by decide)).1,
   ((claim_C9 MemoryMap.new 0xFFFF 5).2.2.1 (by decide)).2.2⟩

end Emulator
